import Mathlib

/-!
Shallow embedding of the conversation-suggestion service of this
repository: `app/services/ConversationSuggestionEngine.py` (the methods
`generate_suggestions` and `get_contextual_suggestions`) and the history
buffer `ConnectionManager.add_message_to_history` of `app/main.py`.

Python values that can come out of `json.loads` are modelled by `Jval`,
Python exceptions by `PyExc`.  The two external dependencies are
parameters of the embedded functions:

* `chainRun` models `self.suggestion_chain.run(...)` (the langchain call
  into the Ollama backend): it either returns the raw response text
  (`Except.ok`) or raises an exception (`Except.error`);
* `jloads` models Python's `json.loads` applied to a string: `some v`
  when it returns the value `v`, `none` when it raises
  `json.JSONDecodeError`.

All string processing of the recovery path (`strip`, `strip('"-')`,
`split("\n")`, `startswith`) is embedded on the character list of the
string, following Python's semantics of those methods.
-/

/-- A JSON-decodable Python value: the possible results of `json.loads`. -/
inductive Jval where
  | null : Jval
  | bool (b : Bool) : Jval
  | num (n : Int) : Jval
  | str (s : String) : Jval
  | arr (elems : List Jval) : Jval
  | obj (fields : List (String × Jval)) : Jval

/-- Python exceptions, distinguished exactly as far as the `try/except`
clauses of `generate_suggestions` distinguish them: `jsonDecodeError` is
`json.JSONDecodeError`, `unboundLocalError` is the `UnboundLocalError`
raised when a local variable is read before assignment, and `otherError`
stands for any other `Exception`. -/
inductive PyExc where
  | jsonDecodeError : PyExc
  | unboundLocalError : PyExc
  | otherError (msg : String) : PyExc
deriving DecidableEq

/-- The characters removed by Python's argumentless `str.strip()`
(ASCII whitespace). -/
def pyWhitespace (c : Char) : Bool :=
  c == ' ' || c == '\t' || c == '\n' || c == '\r' || c == '\x0b' || c == '\x0c'

/-- Remove characters satisfying `p` from both ends: the semantics of
Python's `str.strip(chars)` on the character list of the string. -/
def stripWhile (p : Char → Bool) (cs : List Char) : List Char :=
  ((cs.dropWhile p).reverse.dropWhile p).reverse

/-- Python's `str.strip()` on the character list of a string. -/
def pyStrip (cs : List Char) : List Char :=
  stripWhile pyWhitespace cs

/-- The character set of the `.strip('"-')` call in the recovery loop. -/
def quoteDash (c : Char) : Bool :=
  c == '"' || c == '-'

/-- Python's `str.split("\n")` on a character list: split at every
newline, keeping empty pieces (so the result is never empty). -/
def splitNl : List Char → List (List Char)
  | [] => [[]]
  | c :: rest =>
    if c == '\n' then [] :: splitNl rest
    else
      match splitNl rest with
      | [] => [[c]]
      | l :: ls => (c :: l) :: ls

/-- `line.strip().strip('"-').strip()` from the recovery loop of
`generate_suggestions`. -/
def cleanLine (cs : List Char) : List Char :=
  pyStrip (stripWhile quoteDash (pyStrip cs))

/-- Python's `str.startswith` for a single-character prefix. -/
def startsWithChar (cs : List Char) (c : Char) : Bool :=
  match cs with
  | [] => false
  | x :: _ => x == c

/-- The guard of the recovery loop:
`if cleaned and not cleaned.startswith("[") and not cleaned.startswith("]")`. -/
def keepLine (cs : List Char) : Bool :=
  !cs.isEmpty && !startsWithChar cs '[' && !startsWithChar cs ']'

/-- The `for line in lines` accumulation of the `except json.JSONDecodeError`
handler of `generate_suggestions`: clean every line and append the
survivors, in order, to the `suggestions` accumulator. -/
def parseLinesLoop (lines : List (List Char)) : List (List Char) :=
  lines.foldl
    (fun suggestions line =>
      let cleaned := cleanLine line
      if keepLine cleaned then suggestions ++ [cleaned] else suggestions)
    []

/-- The hard-coded list returned by the `except Exception` handler of
`generate_suggestions`. -/
def FALLBACK_SUGGESTIONS : List Jval :=
  [Jval.str "Let\x27s change the topic.",
   Jval.str "Expand on that idea.",
   Jval.str "How did that make you feel?"]

/-- `ConversationSuggestionEngine.generate_suggestions`.

The `try` block runs `chainRun`, then `json.loads(response.strip())`; a
successful parse to a Python list is truncated to its first 3 elements,
any other parsed value yields `[response]`.  The `except
json.JSONDecodeError` handler rebuilds suggestions from the cleaned
non-bracket lines of `response.strip()`.  The `except Exception` handler
returns the hard-coded fallback.

Python matches `except` clauses in order against whatever the `try`
block raised.  So when `chainRun` itself raises `json.JSONDecodeError`,
the first handler runs and immediately evaluates `response.strip()`, but
the local variable `response` was never assigned: Python raises
`UnboundLocalError`, and an exception raised inside an `except` handler
is not caught by the later `except Exception` clause of the same `try`,
so it propagates to the caller. -/
def generate_suggestions (jloads : String → Option Jval)
    (chainRun : String → String → String → Except PyExc String)
    (conversation_history current_topic user_preferences : String) :
    Except PyExc (List Jval) :=
  match chainRun conversation_history current_topic user_preferences with
  | Except.ok response =>
    match jloads (String.mk (pyStrip response.data)) with
    | some suggestions =>
      match suggestions with
      | Jval.arr elems => Except.ok (elems.take 3)
      | _ => Except.ok [Jval.str response]
    | none =>
      Except.ok
        (((parseLinesLoop (splitNl (pyStrip response.data))).take 3).map
          (fun cs => Jval.str (String.mk cs)))
  | Except.error e =>
    match e with
    | PyExc.jsonDecodeError => Except.error PyExc.unboundLocalError
    | _ => Except.ok FALLBACK_SUGGESTIONS

/-- A message dict as consumed by `get_contextual_suggestions`: the
`"role"` and `"content"` keys may each be absent (`none`). -/
structure Msg where
  role? : Option String
  content? : Option String
deriving DecidableEq

/-- One line of the formatted history, `f"{role}: {content}\n"`, with the
`msg.get("role", "user")` and `msg.get("content", "")` defaults. -/
def msgLine (m : Msg) : String :=
  m.role?.getD "user" ++ ": " ++ m.content?.getD "" ++ "\n"

/-- The history-building loop of `get_contextual_suggestions`:
`for msg in recent_messages[-5:]: history += f"{role}: {content}\n"`. -/
def formatHistoryLoop (recent_messages : List Msg) : String :=
  (recent_messages.drop (recent_messages.length - 5)).foldl
    (fun history msg => history ++ msgLine msg) ""

/-- The `preferences` text of `get_contextual_suggestions`:
`"User is interested in: {', '.join(user_interests)}"` when
`user_interests` is truthy (neither `None` nor empty), else `""`. -/
def preferencesFor (user_interests : Option (List String)) : String :=
  match user_interests with
  | some interests =>
    if interests.isEmpty then ""
    else "User is interested in: " ++ String.intercalate ", " interests
  | none => ""

/-- The `context` text of `get_contextual_suggestions`:
`f"Current topic: {topic}" if topic else "General conversation"`. -/
def contextFor (topic : String) : String :=
  if topic = "" then "General conversation" else "Current topic: " ++ topic

/-- `ConversationSuggestionEngine.get_contextual_suggestions`: format the
history, preferences and context, then delegate to
`generate_suggestions`. -/
def get_contextual_suggestions (jloads : String → Option Jval)
    (chainRun : String → String → String → Except PyExc String)
    (recent_messages : List Msg) (topic : String)
    (user_interests : Option (List String)) : Except PyExc (List Jval) :=
  generate_suggestions jloads chainRun (formatHistoryLoop recent_messages)
    (contextFor topic) (preferencesFor user_interests)

/-- `ConnectionManager.conversation_histories` of `app/main.py`: a dict
from client id to message list, modelled as a lookup function where
`none` means the key is absent. -/
def Histories : Type := String → Option (List Msg)

/-- `ConnectionManager.add_message_to_history` of `app/main.py`: default
a missing key to `[]`, append the new `{"role": role, "content": content}`
dict, and if the length exceeds 20 keep only the last 20 messages
(`[-20:]`). -/
def add_message_to_history (d : Histories) (client_id role content : String) :
    Histories :=
  let cur := (d client_id).getD []
  let appended := cur ++ [Msg.mk (some role) (some content)]
  let final :=
    if 20 < appended.length then appended.drop (appended.length - 20)
    else appended
  fun k => if k = client_id then some final else d k

/-- The recovery algorithm exactly as claim C5 words it: split the raw
text by line breaks, strip each line of surrounding whitespace and
leading/trailing quote and dash characters, discard empty lines and
exactly the lines that are the single character "[" or the single
character "]", keep the survivors in order, and take the first 3. -/
def linesRecoveryClaimed (raw : String) : List String :=
  ((((splitNl raw.data).map cleanLine).filter
    (fun cs => !cs.isEmpty && cs != ['['] && cs != ([']'] : List Char))).map
    String.mk).take 3

/-- The recovery path as the code implements it (claim C5 amended):
split the trimmed raw text by line breaks, strip each line of
surrounding whitespace and leading/trailing quote and dash characters,
discard empty lines and every line that starts with "[" or starts with
"]", keep the survivors in order, and take the first 3. -/
def linesRecoveryAmended (raw : String) : List String :=
  ((((splitNl (pyStrip raw.data)).map cleanLine).filter keepLine).map
    String.mk).take 3

/-- Helper: whatever `generate_suggestions` returns (rather than raises)
has at most 3 elements. -/
theorem generate_suggestions_ok_length (jloads : String → Option Jval)
    (chainRun : String → String → String → Except PyExc String)
    (ch ct up : String) (result : List Jval)
    (h : generate_suggestions jloads chainRun ch ct up = Except.ok result) :
    result.length ≤ 3 := by
  unfold generate_suggestions at h
  split at h
  · -- chainRun returned a response
    split at h
    · -- json.loads succeeded
      split at h
      · cases h; simp [List.length_take]
      · cases h; simp
    · -- json.loads failed: line-split recovery
      cases h; simp [List.length_take]
  · -- chainRun raised
    split at h
    · simp at h
    · cases h; simp [FALLBACK_SUGGESTIONS]

/-- Claim C1: for every input (any list of message dicts, any topic, any
optional interests list) and every backend and parser behaviour, whenever
`get_contextual_suggestions` returns a list, that list has length at most
3 — on the successful-JSON-parse path, the line-split recovery path and
the hard-coded fallback path alike. -/
theorem get_contextual_suggestions_length_le_three
    (jloads : String → Option Jval)
    (chainRun : String → String → String → Except PyExc String)
    (recent_messages : List Msg) (topic : String)
    (user_interests : Option (List String)) (result : List Jval)
    (h : get_contextual_suggestions jloads chainRun recent_messages topic
        user_interests = Except.ok result) :
    result.length ≤ 3 := by
  exact generate_suggestions_ok_length _ _ _ _ _ _ h

/-- Witness for C1 at a concrete input: the backend returns the non-JSON
text `"alpha\nbeta"`, the parse fails, and the recovery path returns the
two cleaned lines — a list of length at most 3. -/
theorem get_contextual_suggestions_length_le_three_witness :
    get_contextual_suggestions (fun _ => none)
      (fun _ _ _ => Except.ok "alpha\nbeta") [] "" none =
      Except.ok [Jval.str "alpha", Jval.str "beta"] ∧
    ([Jval.str "alpha", Jval.str "beta"] : List Jval).length ≤ 3 :=
  ⟨rfl,
   get_contextual_suggestions_length_le_three (fun _ => none)
     (fun _ _ _ => Except.ok "alpha\nbeta") [] "" none
     [Jval.str "alpha", Jval.str "beta"] rfl⟩

/-- Claim C2 (code bug): the claim says that whenever the backend call
raises, `generate_suggestions` returns the hard-coded three-element
fallback.  But when the raised exception is `json.JSONDecodeError`, the
first `except` clause matches and its handler reads the local variable
`response`, which the failed `chainRun` never assigned, so the call
raises `UnboundLocalError` instead of returning the fallback. -/
theorem generate_suggestions_backend_jsonDecodeError_no_fallback :
    generate_suggestions (fun _ => none)
      (fun _ _ _ => Except.error PyExc.jsonDecodeError) "" "" "" =
      Except.error PyExc.unboundLocalError :=
  rfl

/-- Claim C3 (code bug): the claim says `get_contextual_suggestions`
never propagates an exception to its caller, but when the backend call
raises `json.JSONDecodeError` the `UnboundLocalError` raised inside the
first `except` handler of `generate_suggestions` propagates out of
`get_contextual_suggestions` uncaught. -/
theorem get_contextual_suggestions_can_raise :
    get_contextual_suggestions (fun _ => none)
      (fun _ _ _ => Except.error PyExc.jsonDecodeError)
      [Msg.mk (some "user") (some "Hi")] "" none =
      Except.error PyExc.unboundLocalError :=
  rfl

/-- Claim C4: if the backend returns text whose trimmed form parses as a
JSON array of 5 strings, `generate_suggestions` returns exactly the
first 3 of those strings, in their original order. -/
theorem generate_suggestions_json_array_first_three
    (jloads : String → Option Jval)
    (chainRun : String → String → String → Except PyExc String)
    (ch ct up r : String) (ss : List String)
    (hrun : chainRun ch ct up = Except.ok r)
    (hparse : jloads (String.mk (pyStrip r.data)) =
      some (Jval.arr (ss.map Jval.str)))
    (_hlen : ss.length = 5) :
    generate_suggestions jloads chainRun ch ct up =
      Except.ok ((ss.take 3).map Jval.str) := by
  simp only [generate_suggestions, hrun, hparse]
  rw [List.map_take]

/-- Witness for C4 at a concrete input: the backend returns the JSON
array text of the five strings a, b, c, d, e; the result is the first
three. -/
theorem generate_suggestions_json_array_first_three_witness :
    generate_suggestions
      (fun _ => some (Jval.arr ((["a", "b", "c", "d", "e"] :
        List String).map Jval.str)))
      (fun _ _ _ => Except.ok "[\"a\", \"b\", \"c\", \"d\", \"e\"]")
      "" "" "" =
      Except.ok (((["a", "b", "c", "d", "e"] :
        List String).take 3).map Jval.str) :=
  generate_suggestions_json_array_first_three _ _ "" "" ""
    "[\"a\", \"b\", \"c\", \"d\", \"e\"]" ["a", "b", "c", "d", "e"]
    rfl rfl rfl

/-- The recovery loop is the filter of the cleaned lines: helper relating
the `for` loop accumulator to a `map`/`filter` pipeline. -/
theorem parseLinesLoop_eq_filter_map (lines : List (List Char)) :
    parseLinesLoop lines = (lines.map cleanLine).filter keepLine := by
  have aux : ∀ (ls : List (List Char)) (acc : List (List Char)),
      ls.foldl
        (fun suggestions line =>
          let cleaned := cleanLine line
          if keepLine cleaned then suggestions ++ [cleaned] else suggestions)
        acc = acc ++ (ls.map cleanLine).filter keepLine := by
    intro ls
    induction ls with
    | nil => intro acc; simp
    | cons a ls ih =>
      intro acc
      simp only [List.foldl_cons, List.map_cons, List.filter_cons]
      cases hk : keepLine (cleanLine a) <;>
        simp [hk, ih, List.append_assoc]
  simpa [parseLinesLoop] using aux lines []

/-- Counterexample to claim C5 as stated: on the non-JSON backend text
`"[not json\nsecond line"`, the code discards the line `"[not json"`
because it merely starts with "[", while the claim keeps every line that
is not exactly "[" or "]"; the two results differ. -/
theorem line_recovery_claim_counterexample :
    generate_suggestions (fun _ => none)
      (fun _ _ _ => Except.ok "[not json\nsecond line") "" "" "" =
      Except.ok [Jval.str "second line"] ∧
    linesRecoveryClaimed "[not json\nsecond line" =
      ["[not json", "second line"] ∧
    ([Jval.str "second line"] : List Jval) ≠
      (["[not json", "second line"].map Jval.str) :=
  ⟨rfl, rfl, by
    intro h
    have hl := congrArg List.length h
    simp at hl⟩

/-- Claim C5 (amended): when the backend returns text whose JSON parse
fails, `generate_suggestions` returns the cleaned surviving lines of the
trimmed text — discarding empty lines and lines that start with "[" or
"]" — in order, truncated to the first 3. -/
theorem generate_suggestions_line_recovery
    (jloads : String → Option Jval)
    (chainRun : String → String → String → Except PyExc String)
    (ch ct up r : String)
    (hrun : chainRun ch ct up = Except.ok r)
    (hparse : jloads (String.mk (pyStrip r.data)) = none) :
    generate_suggestions jloads chainRun ch ct up =
      Except.ok ((linesRecoveryAmended r).map Jval.str) := by
  simp only [generate_suggestions, hrun, hparse, linesRecoveryAmended,
    parseLinesLoop_eq_filter_map]
  simp only [List.map_take, List.map_map, Except.ok.injEq]
  rfl

/-- Witness for the amended C5 at a concrete input: the backend returns
`"[\n- \"one idea\"\n- \"another idea\"\n]"`; the bracket lines are
discarded, the dash/quote decorations are stripped, and the two cleaned
suggestions come back in order. -/
theorem generate_suggestions_line_recovery_witness :
    generate_suggestions (fun _ => none)
      (fun _ _ _ => Except.ok "[\n- \"one idea\"\n- \"another idea\"\n]")
      "" "" "" =
      Except.ok ((linesRecoveryAmended
        "[\n- \"one idea\"\n- \"another idea\"\n]").map Jval.str) :=
  generate_suggestions_line_recovery (fun _ => none)
    (fun _ _ _ => Except.ok "[\n- \"one idea\"\n- \"another idea\"\n]")
    "" "" "" "[\n- \"one idea\"\n- \"another idea\"\n]" rfl rfl

/-- Helper: stripping characters from both ends yields a sublist. -/
theorem stripWhile_sublist (p : Char → Bool) (cs : List Char) :
    (stripWhile p cs).Sublist cs := by
  unfold stripWhile
  have h1 : List.Sublist ((cs.dropWhile p).reverse.dropWhile p)
      (cs.dropWhile p).reverse :=
    List.dropWhile_sublist p
  have h2 : List.Sublist ((cs.dropWhile p).reverse.dropWhile p).reverse
      (cs.dropWhile p) := by
    have h3 := List.reverse_sublist.mpr h1
    simpa using h3
  exact h2.trans (List.dropWhile_sublist p)

/-- Helper: the cleaned line is a sublist of the original line, so it
contains no character the original line lacks. -/
theorem cleanLine_sublist (cs : List Char) : (cleanLine cs).Sublist cs := by
  unfold cleanLine pyStrip
  exact ((stripWhile_sublist pyWhitespace _).trans
    (stripWhile_sublist quoteDash _)).trans (stripWhile_sublist pyWhitespace cs)

/-- Helper: a line with no bracket characters whose cleaned form is
non-empty survives the recovery loop's guard. -/
theorem keepLine_of_no_brackets (cs : List Char)
    (hne : cleanLine cs ≠ []) (h1 : '[' ∉ cs) (h2 : ']' ∉ cs) :
    keepLine (cleanLine cs) = true := by
  have hsub := cleanLine_sublist cs
  cases hc : cleanLine cs with
  | nil => exact absurd hc hne
  | cons x xs =>
    rw [hc] at hsub
    have hxcs : x ∈ cs := hsub.mem (List.mem_cons_self x xs)
    have hxl : x ≠ '[' := fun he => h1 (he ▸ hxcs)
    have hxr : x ≠ ']' := fun he => h2 (he ▸ hxcs)
    simp [keepLine, startsWithChar, hxl, hxr]

/-- Claim C6: if the backend returns non-JSON text consisting of exactly
2 lines, each non-empty after cleaning and containing no bracket
characters, `generate_suggestions` returns exactly those 2 cleaned lines
in their original order. -/
theorem generate_suggestions_two_clean_lines
    (jloads : String → Option Jval)
    (chainRun : String → String → String → Except PyExc String)
    (ch ct up r : String) (a b : List Char)
    (hrun : chainRun ch ct up = Except.ok r)
    (hparse : jloads (String.mk (pyStrip r.data)) = none)
    (hsplit : splitNl (pyStrip r.data) = [a, b])
    (ha : cleanLine a ≠ []) (hb : cleanLine b ≠ [])
    (hal : '[' ∉ a) (har : ']' ∉ a) (hbl : '[' ∉ b) (hbr : ']' ∉ b) :
    generate_suggestions jloads chainRun ch ct up =
      Except.ok [Jval.str (String.mk (cleanLine a)),
                 Jval.str (String.mk (cleanLine b))] := by
  simp only [generate_suggestions, hrun, hparse, hsplit,
    parseLinesLoop_eq_filter_map, List.map_cons, List.map_nil]
  rw [List.filter_cons_of_pos (keepLine_of_no_brackets a ha hal har),
    List.filter_cons_of_pos (keepLine_of_no_brackets b hb hbl hbr)]
  rfl

/-- Witness for C6 at a concrete input: the backend returns
`"hello\nworld"` and the result is those two lines. -/
theorem generate_suggestions_two_clean_lines_witness :
    generate_suggestions (fun _ => none)
      (fun _ _ _ => Except.ok "hello\nworld") "" "" "" =
      Except.ok [Jval.str (String.mk (cleanLine "hello".data)),
                 Jval.str (String.mk (cleanLine "world".data))] :=
  generate_suggestions_two_clean_lines (fun _ => none)
    (fun _ _ _ => Except.ok "hello\nworld") "" "" "" "hello\nworld"
    "hello".data "world".data rfl rfl (by decide) (by decide) (by decide)
    (by decide) (by decide) (by decide) (by decide)

/-- Claim C7: the topic text is `"Current topic: {topic}"` for a
non-empty topic and the literal `"General conversation"` for an empty
one; the preferences text is `"User is interested in: "` followed by the
comma-joined interests when the list is non-empty, and empty when the
interests are `None` or the empty list.  (Both are total Lean functions,
so no combination of missing or empty fields can fail.) -/
theorem prompt_topic_and_preferences_format (topic : String)
    (user_interests : Option (List String)) :
    (topic ≠ "" → contextFor topic = "Current topic: " ++ topic) ∧
    (topic = "" → contextFor topic = "General conversation") ∧
    (∀ interests, user_interests = some interests → interests ≠ [] →
      preferencesFor user_interests =
        "User is interested in: " ++ String.intercalate ", " interests) ∧
    (user_interests = none ∨ user_interests = some [] →
      preferencesFor user_interests = "") := by
  refine ⟨fun h => ?_, fun h => ?_, fun interests hi hne => ?_, fun h => ?_⟩
  · simp [contextFor, h]
  · simp [contextFor, h]
  · subst hi
    simp [preferencesFor, hne]
  · rcases h with h | h <;> subst h <;> simp [preferencesFor]

/-- Witness for C7 at concrete inputs: topic "Books" and interests
["a", "b"]. -/
theorem prompt_topic_and_preferences_format_witness :
    contextFor "Books" = "Current topic: " ++ "Books" ∧
    preferencesFor (some ["a", "b"]) =
      "User is interested in: " ++ String.intercalate ", " ["a", "b"] :=
  ⟨(prompt_topic_and_preferences_format "Books" (some ["a", "b"])).1
      (by decide),
   (prompt_topic_and_preferences_format "Books"
      (some ["a", "b"])).2.2.1 ["a", "b"] rfl (by decide)⟩

/-- Helper: folding string concatenation from any seed prepends the seed
to the join of the list. -/
theorem string_foldl_append (l : List String) :
    ∀ s : String, l.foldl (fun r t => r ++ t) s = s ++ String.join l := by
  induction l with
  | nil => intro s; simp [String.join]
  | cons a l ih =>
    intro s
    simp only [List.foldl_cons]
    rw [ih (s ++ a)]
    have h0 : ("" ++ a : String) = a := rfl
    have hj : String.join (a :: l) = a ++ String.join l := by
      show l.foldl (fun r t => r ++ t) ("" ++ a) = a ++ String.join l
      rw [h0, ih a]
    rw [hj, ← String.append_assoc]

/-- Helper: the history-accumulation loop equals the join of the
per-message rendered lines. -/
theorem foldl_msgLine_eq_join (l : List Msg) (s : String) :
    l.foldl (fun history msg => history ++ msgLine msg) s =
      s ++ String.join (l.map msgLine) := by
  induction l generalizing s with
  | nil => simp [String.join]
  | cons a l ih =>
    simp only [List.foldl_cons, List.map_cons]
    rw [ih]
    have h0 : ("" ++ msgLine a : String) = msgLine a := rfl
    have hj : String.join (msgLine a :: l.map msgLine) =
        msgLine a ++ String.join (l.map msgLine) := by
      show (l.map msgLine).foldl (fun r t => r ++ t) ("" ++ msgLine a) =
        msgLine a ++ String.join (l.map msgLine)
      rw [h0, string_foldl_append (l.map msgLine) (msgLine a)]
    rw [hj, ← String.append_assoc]

/-- Claim C8: the formatting stage is a pure function — evaluating it
twice on the same input yields the same text (in this embedding that is
definitional, which is exactly the hyperproperty claimed) — and the
history it renders is the newline-terminated `"{role}: {content}"` line
of each of the last at most 5 messages, joined in original order. -/
theorem history_format_deterministic_and_lines (recent_messages : List Msg) :
    formatHistoryLoop recent_messages = formatHistoryLoop recent_messages ∧
    formatHistoryLoop recent_messages =
      String.join ((recent_messages.drop (recent_messages.length - 5)).map
        msgLine) := by
  refine ⟨rfl, ?_⟩
  unfold formatHistoryLoop
  rw [foldl_msgLine_eq_join]
  rfl

/-- Claim C9: every append through `add_message_to_history` leaves the
client's buffer with at most 20 messages; and appending to a buffer that
already holds 20 messages evicts the oldest, leaving exactly the newest
20 in their original relative order with the new message at the end. -/
theorem add_message_to_history_cap_twenty (d : Histories)
    (client_id role content : String) :
    ∃ buf2,
      add_message_to_history d client_id role content client_id = some buf2 ∧
      buf2.length ≤ 20 ∧
      (∀ buf, d client_id = some buf → buf.length = 20 →
        buf2 = buf.drop 1 ++ [Msg.mk (some role) (some content)] ∧
        buf2.length = 20) := by
  have hkey : add_message_to_history d client_id role content client_id =
      some (if 20 <
          ((d client_id).getD [] ++ [Msg.mk (some role) (some content)]).length
        then ((d client_id).getD [] ++
            [Msg.mk (some role) (some content)]).drop
          (((d client_id).getD [] ++
            [Msg.mk (some role) (some content)]).length - 20)
        else (d client_id).getD [] ++ [Msg.mk (some role) (some content)]) := by
    unfold add_message_to_history
    simp
  refine ⟨_, hkey, ?_, ?_⟩
  · by_cases h20 : 20 <
        ((d client_id).getD [] ++ [Msg.mk (some role) (some content)]).length
    · rw [if_pos h20]
      simp only [List.length_drop]
      omega
    · rw [if_neg h20]
      omega
  · intro buf hbuf hblen
    simp only [hbuf, Option.getD_some]
    have hA : (buf ++ [Msg.mk (some role) (some content)]).length = 21 := by
      simp [hblen]
    rw [if_pos (by omega)]
    constructor
    · rw [hA]
      exact List.drop_append_of_le_length (by omega)
    · simp [hA]

/-- Claim C10 (implicit): a message dict lacking the `"role"` key is
rendered with the default role `"user"`, one lacking the `"content"` key
is rendered with empty content, and a dict lacking both still renders —
malformed message dicts never make the history formatting fail. -/
theorem missing_role_content_defaults (r c : String) :
    msgLine (Msg.mk none (some c)) = "user: " ++ c ++ "\n" ∧
    msgLine (Msg.mk (some r) none) = r ++ ": " ++ "\n" ∧
    formatHistoryLoop [Msg.mk none none] = "user: \n" := by
  refine ⟨rfl, ?_, rfl⟩
  show r ++ ": " ++ "" ++ "\n" = r ++ ": " ++ "\n"
  rw [String.append_empty]

/-- Witness for C9 at a concrete input: a client whose buffer holds 20
messages receives a 21st; the oldest message is evicted and the buffer
stays at 20 with the new message at the end. -/
theorem add_message_to_history_cap_twenty_witness :
    ∃ buf2,
      add_message_to_history
        (fun _ => some (List.replicate 20 (Msg.mk (some "user") (some "m"))))
        "c" "assistant" "new" "c" = some buf2 ∧
      buf2.length ≤ 20 ∧
      (buf2 = (List.replicate 20 (Msg.mk (some "user") (some "m"))).drop 1 ++
          [Msg.mk (some "assistant") (some "new")] ∧
        buf2.length = 20) := by
  obtain ⟨buf2, h1, h2, h3⟩ :=
    add_message_to_history_cap_twenty
      (fun _ => some (List.replicate 20 (Msg.mk (some "user") (some "m"))))
      "c" "assistant" "new"
  exact ⟨buf2, h1, h2, h3 _ rfl (by decide)⟩
